import Mathlib

/-!
Verification of the face-reconstruction and semantic-layer core of the
repository.  Python floats are modelled as rationals, Python dicts as
association lists kept in insertion order, Python exceptions as `Except`.
Square roots do not exist on the rationals, so every function of the source
that calls math.sqrt is parameterised by an explicit function sq standing
for the square root; every theorem about those functions holds for an
arbitrary sq.
-/

namespace FaceCore

/-! ### reference_proportions.py -/

/-- Embeds REFERENCE_PROPORTIONS: ratio name to (mean, std). -/
def REFERENCE_PROPORTIONS : List (String × (ℚ × ℚ)) := [
  ("nose_width_ratio", (56/100, 7/100)),
  ("nose_length_ratio", (70/100, 9/100)),
  ("nose_tip_height_ratio", (0, 18/1000)),
  ("nose_bridge_width_ratio", (28/100, 4/100)),
  ("nose_bridge_height_ratio", (20/1000, 12/1000)),
  ("jaw_width_ratio", (2, 18/100)),
  ("jaw_height_ratio", (62/100, 9/100)),
  ("jaw_angle_ratio", (0, 8/100)),
  ("chin_prominence_ratio", (0, 13/1000)),
  ("chin_width_ratio", (52/100, 7/100)),
  ("chin_height_ratio", (23/100, 4/100)),
  ("eye_height_ratio", (16/100, 25/1000)),
  ("eye_spacing_ratio", (60/100, 6/100)),
  ("eye_tilt_ratio", (0, 25/1000)),
  ("eye_depth_ratio", (0, 12/1000)),
  ("brow_height_ratio", (26/100, 45/1000)),
  ("brow_arch_ratio", (35/1000, 18/1000)),
  ("brow_spacing_ratio", (52/100, 6/100)),
  ("lip_upper_ratio", (11/100, 25/1000)),
  ("lip_lower_ratio", (14/100, 25/1000)),
  ("lip_width_ratio", (76/100, 9/100)),
  ("lip_height_ratio", (32/100, 4/100)),
  ("cheekbone_height_ratio", (0, 25/1000)),
  ("cheekbone_prominence_ratio", (88/100, 7/100)),
  ("cheek_fullness_ratio", (0, 15/1000)),
  ("forehead_height_ratio", (82/100, 11/100)),
  ("forehead_width_ratio", (175/100, 14/100)),
  ("forehead_slope_ratio", (0, 12/1000)),
  ("face_width_ratio", (2, 18/100)),
  ("face_length_ratio", (255/100, 22/100)),
  ("ear_size_ratio", (0, 10/100)),
  ("ear_angle_ratio", (0, 10/100))]

/-- Embeds DEFAULT_SENSITIVITY = 1.5. -/
def DEFAULT_SENSITIVITY : ℚ := 3/2

/-- Embeds MEASUREMENT_CONFIDENCE: ratio name to static confidence tier. -/
def MEASUREMENT_CONFIDENCE : List (String × String) := [
  ("nose_width_ratio", "high"),
  ("nose_length_ratio", "high"),
  ("jaw_width_ratio", "high"),
  ("eye_height_ratio", "high"),
  ("eye_spacing_ratio", "high"),
  ("lip_width_ratio", "high"),
  ("lip_upper_ratio", "high"),
  ("lip_lower_ratio", "high"),
  ("face_length_ratio", "high"),
  ("face_width_ratio", "high"),
  ("chin_width_ratio", "high"),
  ("brow_spacing_ratio", "high"),
  ("brow_height_ratio", "high"),
  ("nose_bridge_width_ratio", "medium"),
  ("jaw_height_ratio", "medium"),
  ("jaw_angle_ratio", "medium"),
  ("chin_height_ratio", "medium"),
  ("eye_tilt_ratio", "medium"),
  ("brow_arch_ratio", "medium"),
  ("lip_height_ratio", "medium"),
  ("cheekbone_height_ratio", "medium"),
  ("cheekbone_prominence_ratio", "medium"),
  ("forehead_height_ratio", "medium"),
  ("forehead_width_ratio", "medium"),
  ("nose_tip_height_ratio", "low"),
  ("nose_bridge_height_ratio", "low"),
  ("chin_prominence_ratio", "low"),
  ("eye_depth_ratio", "low"),
  ("cheek_fullness_ratio", "low"),
  ("forehead_slope_ratio", "low"),
  ("ear_size_ratio", "low"),
  ("ear_angle_ratio", "low")]

/-! ### feature_mapper.py -/

/-- Embeds PROPORTION_TO_FEATURE: feature name to the ratio it is read from,
in the dict insertion order of the source. -/
def PROPORTION_TO_FEATURE : List (String × String) := [
  ("nose_width", "nose_width_ratio"),
  ("nose_length", "nose_length_ratio"),
  ("nose_tip_height", "nose_tip_height_ratio"),
  ("nose_bridge_width", "nose_bridge_width_ratio"),
  ("nose_bridge_height", "nose_bridge_height_ratio"),
  ("jaw_width", "jaw_width_ratio"),
  ("jaw_height", "jaw_height_ratio"),
  ("jaw_angle", "jaw_angle_ratio"),
  ("chin_prominence", "chin_prominence_ratio"),
  ("chin_width", "chin_width_ratio"),
  ("chin_height", "chin_height_ratio"),
  ("eye_size", "eye_height_ratio"),
  ("eye_spacing", "eye_spacing_ratio"),
  ("eye_tilt", "eye_tilt_ratio"),
  ("eye_depth", "eye_depth_ratio"),
  ("brow_height", "brow_height_ratio"),
  ("brow_arch", "brow_arch_ratio"),
  ("brow_spacing", "brow_spacing_ratio"),
  ("lip_fullness_upper", "lip_upper_ratio"),
  ("lip_fullness_lower", "lip_lower_ratio"),
  ("lip_width", "lip_width_ratio"),
  ("lip_height", "lip_height_ratio"),
  ("cheekbone_height", "cheekbone_height_ratio"),
  ("cheekbone_prominence", "cheekbone_prominence_ratio"),
  ("cheek_fullness", "cheek_fullness_ratio"),
  ("forehead_height", "forehead_height_ratio"),
  ("forehead_width", "forehead_width_ratio"),
  ("forehead_slope", "forehead_slope_ratio"),
  ("face_width", "face_width_ratio"),
  ("face_length", "face_length_ratio"),
  ("ear_size", "ear_size_ratio"),
  ("ear_angle", "ear_angle_ratio")]

/-- Embeds feature_mapper._ratio_to_feature_value.  Python raises
ZeroDivisionError when z_score / sensitivity divides by zero, modelled as
Except.error; the std guard of the source comes first, exactly as there. -/
def ratio_to_feature_value (measured mean std sensitivity : ℚ) :
    Except Unit ℚ :=
  if std ≤ 0 then Except.ok 0
  else if sensitivity = 0 then Except.error ()
  else Except.ok (max (-1) (min 1 (((measured - mean) / std) / sensitivity)))

/-- One iteration of the loop of map_proportions_to_features: the feature
defaults to 0.0 when the ratio is missing from the input or from the
reference table, and otherwise gets the z-score value. -/
def featureStep (proportions : List (String × ℚ)) (sensitivity : ℚ)
    (p : String × String) : Except Unit (String × ℚ) :=
  match proportions.lookup p.2 with
  | none => Except.ok (p.1, 0)
  | some measured =>
    match REFERENCE_PROPORTIONS.lookup p.2 with
    | none => Except.ok (p.1, 0)
    | some (mean, std) =>
      match ratio_to_feature_value measured mean std sensitivity with
      | Except.error e => Except.error e
      | Except.ok v => Except.ok (p.1, v)

/-- Effectful list map: a Python for-loop that collects its results and lets
the first raised exception escape. -/
def mapE (g : α → Except Unit β) : List α → Except Unit (List β)
  | [] => Except.ok []
  | a :: l =>
    match g a with
    | Except.error e => Except.error e
    | Except.ok b =>
      match mapE g l with
      | Except.error e => Except.error e
      | Except.ok bs => Except.ok (b :: bs)

/-- Embeds feature_mapper.map_proportions_to_features (sensitivity passed
explicitly; the Python default None selects DEFAULT_SENSITIVITY). -/
def map_proportions_to_features (proportions : List (String × ℚ))
    (sensitivity : ℚ) : Except Unit (List (String × ℚ)) :=
  if proportions.isEmpty then
    Except.ok (PROPORTION_TO_FEATURE.map (fun p => (p.1, 0)))
  else
    mapE (featureStep proportions sensitivity) PROPORTION_TO_FEATURE

/-- The value map_proportions_to_features assigns to the feature that reads
ratioKey, when no exception occurs: a derived pure view used by theorems. -/
def featureValue (proportions : List (String × ℚ)) (sensitivity : ℚ)
    (ratioKey : String) : ℚ :=
  match proportions.lookup ratioKey with
  | none => 0
  | some measured =>
    match REFERENCE_PROPORTIONS.lookup ratioKey with
    | none => 0
    | some (mean, std) =>
      if std ≤ 0 then 0
      else max (-1) (min 1 (((measured - mean) / std) / sensitivity))

/-! ### association-list lemmas -/

theorem lookup_map_pair {β γ : Type} (l : List (String × β)) (v : β → γ)
    (k : String) (r : β) (h : l.lookup k = some r) :
    (l.map (fun p => (p.1, v p.2))).lookup k = some (v r) := by
  induction l with
  | nil => simp [List.lookup] at h
  | cons a t ih =>
    obtain ⟨ka, va⟩ := a
    by_cases hk : k = ka
    · subst hk
      simp [List.lookup] at h ⊢
      exact congrArg v h
    · have hbeq : (k == ka) = false := beq_eq_false_iff_ne.mpr hk
      simp [List.lookup, hbeq] at h ⊢
      exact ih h

theorem lookup_mem_keys {β : Type} (l : List (String × β)) (k : String) (r : β)
    (h : l.lookup k = some r) : k ∈ l.map Prod.fst := by
  induction l with
  | nil => simp [List.lookup] at h
  | cons a t ih =>
    obtain ⟨ka, va⟩ := a
    by_cases hk : k = ka
    · simp [hk]
    · have hbeq : (k == ka) = false := beq_eq_false_iff_ne.mpr hk
      simp [List.lookup, hbeq] at h
      exact List.mem_cons_of_mem _ (ih h)

theorem lookup_ne_nil {β : Type} (l : List (String × β)) (k : String) (r : β)
    (h : l.lookup k = some r) : l ≠ [] := by
  intro hnil
  subst hnil
  simp [List.lookup] at h

/-! ### lemmas about the feature mapper -/

theorem featureStep_ok (props : List (String × ℚ)) (s : ℚ) (hs : s ≠ 0)
    (p : String × String) :
    featureStep props s p = Except.ok (p.1, featureValue props s p.2) := by
  unfold featureStep featureValue ratio_to_feature_value
  cases hm : props.lookup p.2 with
  | none => rfl
  | some measured =>
    cases hr : REFERENCE_PROPORTIONS.lookup p.2 with
    | none => rfl
    | some ms =>
      obtain ⟨mean, std⟩ := ms
      by_cases hstd : std ≤ 0
      · simp [hstd]
      · simp [hstd, hs]

theorem mapE_ok {α β : Type} (g : α → Except Unit β) (h : α → β)
    (hg : ∀ a, g a = Except.ok (h a)) :
    ∀ l : List α, mapE g l = Except.ok (l.map h) := by
  intro l
  induction l with
  | nil => rfl
  | cons a t ih => simp [mapE, hg a, ih]

theorem mapE_error {α β : Type} (g : α → Except Unit β) (l : List α)
    (h : ∃ a ∈ l, g a = Except.error ()) : mapE g l = Except.error () := by
  induction l with
  | nil => simp at h
  | cons a t ih =>
    obtain ⟨b, hb, hgb⟩ := h
    cases hga : g a with
    | error e => simp [mapE, hga]
    | ok v =>
      rcases List.mem_cons.mp hb with rfl | hbt
      · rw [hga] at hgb
        exact absurd hgb (by simp)
      · simp [mapE, hga, ih ⟨b, hbt, hgb⟩]

theorem map_proportions_ok (props : List (String × ℚ)) (s : ℚ) (hs : s ≠ 0) :
    map_proportions_to_features props s =
      Except.ok (PROPORTION_TO_FEATURE.map
        (fun p => (p.1, featureValue props s p.2))) := by
  unfold map_proportions_to_features
  by_cases hp : props.isEmpty
  · rw [if_pos hp]
    have hnil : props = [] := List.isEmpty_iff.mp hp
    subst hnil
    rfl
  · rw [if_neg hp]
    exact mapE_ok _ _ (featureStep_ok props s hs) _

theorem featureValue_eq_clamp (props : List (String × ℚ))
    (s ratioMeasured mean std : ℚ) (ratioKey : String)
    (hm : props.lookup ratioKey = some ratioMeasured)
    (hr : REFERENCE_PROPORTIONS.lookup ratioKey = some (mean, std))
    (hstd : 0 < std) :
    featureValue props s ratioKey =
      max (-1) (min 1 (((ratioMeasured - mean) / std) / s)) := by
  unfold featureValue
  rw [hm, hr]
  simp [not_le.mpr hstd]

theorem featureValue_default (props : List (String × ℚ)) (s : ℚ)
    (ratioKey : String)
    (h : props.lookup ratioKey = none ∨
      REFERENCE_PROPORTIONS.lookup ratioKey = none) :
    featureValue props s ratioKey = 0 := by
  rcases h with h | h
  · simp [featureValue, h]
  · cases hm : props.lookup ratioKey with
    | none => simp [featureValue, hm]
    | some m => simp [featureValue, hm, h]

theorem featureValue_bounds (props : List (String × ℚ)) (s : ℚ)
    (ratioKey : String) :
    -1 ≤ featureValue props s ratioKey ∧ featureValue props s ratioKey ≤ 1 := by
  unfold featureValue
  cases props.lookup ratioKey with
  | none => norm_num
  | some m =>
    cases REFERENCE_PROPORTIONS.lookup ratioKey with
    | none => norm_num
    | some ms =>
      obtain ⟨mean, std⟩ := ms
      by_cases h : std ≤ 0
      · simp [h]
      · simp only [if_neg h]
        exact ⟨le_max_left _ _, max_le (by norm_num) (min_le_left _ _)⟩

theorem mapped_value_eq (props : List (String × ℚ))
    (s measured mean std : ℚ) (feature ratioKey : String)
    (hf : PROPORTION_TO_FEATURE.lookup feature = some ratioKey)
    (hm : props.lookup ratioKey = some measured)
    (hr : REFERENCE_PROPORTIONS.lookup ratioKey = some (mean, std))
    (hstd : 0 < std) (hs : s ≠ 0) :
    ∃ fs, map_proportions_to_features props s = Except.ok fs ∧
      fs.lookup feature =
        some (max (-1) (min 1 (((measured - mean) / std) / s))) := by
  refine ⟨_, map_proportions_ok props s hs, ?_⟩
  rw [← featureValue_eq_clamp props s measured mean std ratioKey hm hr hstd]
  exact lookup_map_pair _ (featureValue props s) _ _ hf

/-! ### face_map.py catalog key order -/

/-- The keys of FACIAL_FEATURE_MAP in their dict insertion order. -/
def FACIAL_FEATURE_NAMES : List String := [
  "nose_width", "nose_length", "nose_tip_height", "nose_bridge_width",
  "nose_bridge_height", "jaw_width", "jaw_height", "jaw_angle",
  "chin_prominence", "chin_width", "chin_height", "eye_size", "eye_spacing",
  "eye_tilt", "eye_depth", "brow_height", "brow_arch", "brow_spacing",
  "lip_fullness_upper", "lip_fullness_lower", "lip_width", "lip_height",
  "cheekbone_height", "cheekbone_prominence", "cheek_fullness",
  "forehead_height", "forehead_width", "forehead_slope", "ear_size",
  "ear_angle", "face_width", "face_length"]

/-- Claim C1: whenever a ratio in the proportions map has a reference entry
(mean, std) with std positive, the mapped feature value equals
clamp(((measured - mean) / std) / sensitivity, -1, 1) for every nonzero
sensitivity; with the default sensitivity, feeding mean + 10*std yields the
feature +1.0, mean - 10*std yields -1.0, and the mean itself yields 0.0. -/
theorem c1_zscore_mapping :
    (∀ (props : List (String × ℚ)) (s measured mean std : ℚ)
        (feature ratioKey : String),
      PROPORTION_TO_FEATURE.lookup feature = some ratioKey →
      props.lookup ratioKey = some measured →
      REFERENCE_PROPORTIONS.lookup ratioKey = some (mean, std) →
      0 < std → s ≠ 0 →
      ∃ fs, map_proportions_to_features props s = Except.ok fs ∧
        fs.lookup feature =
          some (max (-1) (min 1 (((measured - mean) / std) / s))))
    ∧ (∀ (props : List (String × ℚ)) (mean std : ℚ)
        (feature ratioKey : String),
      PROPORTION_TO_FEATURE.lookup feature = some ratioKey →
      props.lookup ratioKey = some (mean + 10 * std) →
      REFERENCE_PROPORTIONS.lookup ratioKey = some (mean, std) →
      0 < std →
      ∃ fs, map_proportions_to_features props DEFAULT_SENSITIVITY =
          Except.ok fs ∧ fs.lookup feature = some 1)
    ∧ (∀ (props : List (String × ℚ)) (mean std : ℚ)
        (feature ratioKey : String),
      PROPORTION_TO_FEATURE.lookup feature = some ratioKey →
      props.lookup ratioKey = some (mean - 10 * std) →
      REFERENCE_PROPORTIONS.lookup ratioKey = some (mean, std) →
      0 < std →
      ∃ fs, map_proportions_to_features props DEFAULT_SENSITIVITY =
          Except.ok fs ∧ fs.lookup feature = some (-1))
    ∧ (∀ (props : List (String × ℚ)) (mean std : ℚ)
        (feature ratioKey : String),
      PROPORTION_TO_FEATURE.lookup feature = some ratioKey →
      props.lookup ratioKey = some mean →
      REFERENCE_PROPORTIONS.lookup ratioKey = some (mean, std) →
      0 < std →
      ∃ fs, map_proportions_to_features props DEFAULT_SENSITIVITY =
          Except.ok fs ∧ fs.lookup feature = some 0) := by
  have hdefault : DEFAULT_SENSITIVITY ≠ 0 := by norm_num [DEFAULT_SENSITIVITY]
  refine ⟨fun props s measured mean std feature ratioKey hf hm hr hstd hs =>
    mapped_value_eq props s measured mean std feature ratioKey hf hm hr hstd hs,
    ?_, ?_, ?_⟩
  · intro props mean std feature ratioKey hf hm hr hstd
    obtain ⟨fs, h1, h2⟩ := mapped_value_eq props DEFAULT_SENSITIVITY
      (mean + 10 * std) mean std feature ratioKey hf hm hr hstd hdefault
    refine ⟨fs, h1, ?_⟩
    rw [h2]
    congr 1
    rw [show mean + 10 * std - mean = 10 * std from by ring,
      mul_div_cancel_right₀ 10 (ne_of_gt hstd)]
    norm_num [DEFAULT_SENSITIVITY, min_def, max_def]
  · intro props mean std feature ratioKey hf hm hr hstd
    obtain ⟨fs, h1, h2⟩ := mapped_value_eq props DEFAULT_SENSITIVITY
      (mean - 10 * std) mean std feature ratioKey hf hm hr hstd hdefault
    refine ⟨fs, h1, ?_⟩
    rw [h2]
    congr 1
    rw [show mean - 10 * std - mean = (-10) * std from by ring,
      mul_div_cancel_right₀ (-10) (ne_of_gt hstd)]
    norm_num [DEFAULT_SENSITIVITY, min_def, max_def]
  · intro props mean std feature ratioKey hf hm hr hstd
    obtain ⟨fs, h1, h2⟩ := mapped_value_eq props DEFAULT_SENSITIVITY
      mean mean std feature ratioKey hf hm hr hstd hdefault
    refine ⟨fs, h1, ?_⟩
    rw [h2]
    congr 1
    rw [show mean - mean = (0:ℚ) from by ring, zero_div, zero_div]
    norm_num [min_def, max_def]

/-- Witness for C1 at a concrete input: nose_width_ratio measured one std
above its mean with sensitivity 1 maps nose_width to clamp(1) and the
mean + 10*std input at the default sensitivity maps it to 1. -/
theorem c1_zscore_mapping_witness :
    (∃ fs, map_proportions_to_features [("nose_width_ratio", 63/100)] 1 =
        Except.ok fs ∧
      fs.lookup "nose_width" =
        some (max (-1) (min 1 (((63/100 - 56/100) / (7/100)) / 1)))) ∧
    (∃ fs, map_proportions_to_features
        [("nose_width_ratio", 56/100 + 10 * (7/100))] DEFAULT_SENSITIVITY =
        Except.ok fs ∧ fs.lookup "nose_width" = some 1) :=
  ⟨c1_zscore_mapping.1 [("nose_width_ratio", 63/100)] 1 (63/100) (56/100)
      (7/100) "nose_width" "nose_width_ratio" rfl rfl rfl (by norm_num)
      (by norm_num),
    c1_zscore_mapping.2.1 [("nose_width_ratio", 56/100 + 10 * (7/100))]
      (56/100) (7/100) "nose_width" "nose_width_ratio" rfl rfl rfl
      (by norm_num)⟩

/-- Claim C3: with the default sensitivity the mapper never fails, its key
set is exactly the 32 catalog feature names, every value lies in [-1, 1],
features whose ratio is absent from the input or from the reference table
get 0.0, and the empty map produces the all-zero feature vector. -/
theorem c3_total_defensive_mapping :
    (∀ props : List (String × ℚ),
      ∃ fs, map_proportions_to_features props DEFAULT_SENSITIVITY =
          Except.ok fs ∧
        (∀ k ∈ fs.map Prod.fst, k ∈ FACIAL_FEATURE_NAMES) ∧
        (∀ k ∈ FACIAL_FEATURE_NAMES, k ∈ fs.map Prod.fst) ∧
        (∀ p ∈ fs, -1 ≤ p.2 ∧ p.2 ≤ 1) ∧
        (∀ feature ratioKey : String,
          PROPORTION_TO_FEATURE.lookup feature = some ratioKey →
          props.lookup ratioKey = none ∨
            REFERENCE_PROPORTIONS.lookup ratioKey = none →
          fs.lookup feature = some 0))
    ∧ map_proportions_to_features [] DEFAULT_SENSITIVITY =
        Except.ok (PROPORTION_TO_FEATURE.map (fun p => (p.1, 0))) := by
  have hdefault : DEFAULT_SENSITIVITY ≠ 0 := by norm_num [DEFAULT_SENSITIVITY]
  constructor
  · intro props
    refine ⟨_, map_proportions_ok props DEFAULT_SENSITIVITY hdefault,
      ?_, ?_, ?_, ?_⟩
    all_goals try rw [List.map_map,
      show (PROPORTION_TO_FEATURE.map (Prod.fst ∘ fun p =>
        (p.1, featureValue props DEFAULT_SENSITIVITY p.2))) =
        PROPORTION_TO_FEATURE.map Prod.fst from rfl]
    · decide
    · decide
    · intro p hp
      obtain ⟨q, hq, rfl⟩ := List.mem_map.mp hp
      exact featureValue_bounds props DEFAULT_SENSITIVITY q.2
    · intro feature ratioKey hf habsent
      rw [← featureValue_default props DEFAULT_SENSITIVITY ratioKey habsent]
      exact lookup_map_pair _ (featureValue props DEFAULT_SENSITIVITY) _ _ hf
  · rfl

/-- Witness for C3 at a concrete input: a one-entry proportions map still
maps the unrelated feature nose_width to 0.0. -/
theorem c3_total_defensive_mapping_witness :
    ∃ fs, map_proportions_to_features [("jaw_width_ratio", 99)]
        DEFAULT_SENSITIVITY = Except.ok fs ∧
      fs.lookup "nose_width" = some 0 := by
  obtain ⟨fs, h1, _, _, _, h5⟩ :=
    c3_total_defensive_mapping.1 [("jaw_width_ratio", 99)]
  exact ⟨fs, h1, h5 "nose_width" "nose_width_ratio" rfl (Or.inl rfl)⟩

/-- Every ratio name of the reference table is the ratio of some catalog
feature, so the mapping loop reaches it. -/
theorem ref_keys_have_feature :
    ∀ r ∈ REFERENCE_PROPORTIONS.map Prod.fst,
      ∃ p ∈ PROPORTION_TO_FEATURE, p.2 = r := by decide

/-- Claim C10: with sensitivity 0 the mapper raises a division-by-zero error
on every proportions map containing a ratio that has a reference entry with
positive std, and with any nonzero sensitivity it always succeeds. -/
theorem c10_sensitivity_zero_division :
    (∀ (props : List (String × ℚ)) (v mean std : ℚ) (r : String),
      props.lookup r = some v →
      REFERENCE_PROPORTIONS.lookup r = some (mean, std) → 0 < std →
      map_proportions_to_features props 0 = Except.error ())
    ∧ (∀ (props : List (String × ℚ)) (s : ℚ), s ≠ 0 →
      ∃ fs, map_proportions_to_features props s = Except.ok fs) := by
  constructor
  · intro props v mean std r hm hr hstd
    have hne : props ≠ [] := lookup_ne_nil props r v hm
    have hempty : props.isEmpty = false := by
      cases props with
      | nil => exact absurd rfl hne
      | cons a t => rfl
    unfold map_proportions_to_features
    simp only [hempty, Bool.false_eq_true, if_false]
    obtain ⟨p, hpmem, hp2⟩ :=
      ref_keys_have_feature r (lookup_mem_keys _ _ _ hr)
    apply mapE_error
    refine ⟨p, hpmem, ?_⟩
    simp [featureStep, hp2, hm, hr, ratio_to_feature_value, not_le.mpr hstd]
  · intro props s hs
    exact ⟨_, map_proportions_ok props s hs⟩

/-- Witness for C10 at a concrete input: a one-entry proportions map makes
sensitivity 0 raise, while sensitivity 1 succeeds. -/
theorem c10_sensitivity_zero_division_witness :
    map_proportions_to_features [("nose_width_ratio", 1)] 0 =
        Except.error () ∧
    ∃ fs, map_proportions_to_features [("nose_width_ratio", 1)] 1 =
        Except.ok fs :=
  ⟨c10_sensitivity_zero_division.1 [("nose_width_ratio", 1)] 1 (56/100)
      (7/100) "nose_width_ratio" rfl rfl (by norm_num),
    c10_sensitivity_zero_division.2 [("nose_width_ratio", 1)] 1
      (by norm_num)⟩

/-! ### feature_mapper.get_feature_confidence -/

/-- The tier get_feature_confidence assigns to one ratio key: the demotion
check of the source runs only when the proportions dict is truthy, that is
nonempty. -/
def confFor (proportions : List (String × ℚ)) (ratioKey : String) : String :=
  if proportions ≠ [] ∧ proportions.lookup ratioKey = none then "low"
  else (MEASUREMENT_CONFIDENCE.lookup ratioKey).getD "low"

/-- Embeds feature_mapper.get_feature_confidence. -/
def get_feature_confidence (proportions : List (String × ℚ)) :
    List (String × String) :=
  PROPORTION_TO_FEATURE.map (fun p => (p.1, confFor proportions p.2))

/-- Claim C9 counterexample: on the empty proportions map the ratio
nose_width_ratio is absent from the measured set, yet the confidence
reported for nose_width is the static tier, not the demoted low. -/
theorem c9_counterexample :
    (get_feature_confidence []).lookup "nose_width" = some "high" ∧
    ([] : List (String × ℚ)).lookup "nose_width_ratio" = none ∧
    ("high" : String) ≠ "low" := by
  refine ⟨rfl, rfl, by decide⟩

/-- Claim C9 amended: a feature whose ratio is present keeps its static
tier; demotion to low for an absent ratio applies only when the proportions
map is nonempty; on the empty (falsy) map every feature keeps its static
tier even though no ratio was measured. -/
theorem c9_confidence_demotion :
    ∀ (props : List (String × ℚ)) (feature ratioKey tier : String),
      PROPORTION_TO_FEATURE.lookup feature = some ratioKey →
      MEASUREMENT_CONFIDENCE.lookup ratioKey = some tier →
      (((props.lookup ratioKey).isSome →
          (get_feature_confidence props).lookup feature = some tier) ∧
        (props ≠ [] → props.lookup ratioKey = none →
          (get_feature_confidence props).lookup feature = some "low") ∧
        (props = [] →
          (get_feature_confidence props).lookup feature = some tier)) := by
  intro props feature ratioKey tier hf hc
  have base : (get_feature_confidence props).lookup feature =
      some (confFor props ratioKey) :=
    lookup_map_pair PROPORTION_TO_FEATURE (confFor props) feature ratioKey hf
  refine ⟨?_, ?_, ?_⟩
  · intro hsome
    obtain ⟨w, hw⟩ := Option.isSome_iff_exists.mp hsome
    have hval : confFor props ratioKey = tier := by
      unfold confFor
      rw [if_neg (by
        rintro ⟨h1, h2⟩
        rw [hw] at h2
        exact Option.noConfusion h2), hc]
      rfl
    rw [base, hval]
  · intro hne hnone
    have hval : confFor props ratioKey = "low" := by
      unfold confFor
      rw [if_pos ⟨hne, hnone⟩]
    rw [base, hval]
  · intro hnil
    subst hnil
    have hval : confFor [] ratioKey = tier := by
      unfold confFor
      rw [if_neg (by rintro ⟨h1, h2⟩; exact h1 rfl), hc]
      rfl
    rw [base, hval]

/-- Witness for the amended C9 at concrete inputs: a measured ratio keeps
the static tier and a nonempty map missing the ratio demotes to low. -/
theorem c9_confidence_demotion_witness :
    (get_feature_confidence [("nose_width_ratio", 1)]).lookup "nose_width" =
        some "high" ∧
    (get_feature_confidence [("jaw_width_ratio", 1)]).lookup "nose_width" =
        some "low" :=
  ⟨(c9_confidence_demotion [("nose_width_ratio", 1)] "nose_width"
      "nose_width_ratio" "high" rfl rfl).1 (by rfl),
    (c9_confidence_demotion [("jaw_width_ratio", 1)] "nose_width"
      "nose_width_ratio" "high" rfl rfl).2.1 (by simp) rfl⟩

/-! ### face_map.detect_rig_type -/

def metahuman_markers : List String :=
  ["FACIAL_C_Jaw", "FACIAL_C_NoseTip", "FACIAL_L_Eye", "FACIAL_C_ForeheadMid"]

def rigify_markers : List String :=
  ["jaw_master", "nose_master", "brow.B.L.001", "lip.T"]

/-- Size of the intersection of a family marker set with the bone name set;
the markers are pairwise distinct, so the count of markers present equals
the Python len(markers.intersection(bone_set)). -/
def markersPresent (markers boneNames : List String) : ℕ :=
  (markers.filter (fun m => boneNames.contains m)).length

/-- Embeds face_map.detect_rig_type: metahuman first, then rigify, generic
as the fallback, each checked with threshold two. -/
def detect_rig_type (boneNames : List String) : String :=
  if 2 ≤ markersPresent metahuman_markers boneNames then "metahuman"
  else if 2 ≤ markersPresent rigify_markers boneNames then "rigify"
  else "generic"

/-- Claim C7: rig detection checks metahuman, then rigify, then falls back
to generic, each family winning exactly when at least two of its markers
are present and no earlier family won; the three concrete identifier sets
of the spec give metahuman, rigify and generic respectively. -/
theorem c7_rig_detection :
    (∀ boneNames : List String,
      (detect_rig_type boneNames = "metahuman" ↔
        2 ≤ markersPresent metahuman_markers boneNames) ∧
      (detect_rig_type boneNames = "rigify" ↔
        (¬ 2 ≤ markersPresent metahuman_markers boneNames ∧
          2 ≤ markersPresent rigify_markers boneNames)) ∧
      (detect_rig_type boneNames = "generic" ↔
        (¬ 2 ≤ markersPresent metahuman_markers boneNames ∧
          ¬ 2 ≤ markersPresent rigify_markers boneNames))) ∧
    detect_rig_type ["FACIAL_C_Jaw", "FACIAL_C_NoseTip", "FACIAL_L_Eye"] =
      "metahuman" ∧
    detect_rig_type ["jaw_master", "nose_master", "lip.T"] = "rigify" ∧
    detect_rig_type ["Bone", "Bone.001"] = "generic" := by
  have hmr : ("metahuman" : String) ≠ "rigify" := by decide
  have hmg : ("metahuman" : String) ≠ "generic" := by decide
  have hrg : ("rigify" : String) ≠ "generic" := by decide
  refine ⟨?_, by rfl, by rfl, by rfl⟩
  intro boneNames
  by_cases h1 : 2 ≤ markersPresent metahuman_markers boneNames
  · simp [detect_rig_type, h1, hmr, hmg]
  · by_cases h2 : 2 ≤ markersPresent rigify_markers boneNames
    · simp [detect_rig_type, h1, h2, hmr.symm, hrg]
    · simp [detect_rig_type, h1, h2, hmg.symm, hrg.symm]

/-! ### feature_mapper.get_top_distinctive_features -/

def insertAbsDesc (x : String × ℚ) :
    List (String × ℚ) → List (String × ℚ)
  | [] => [x]
  | y :: ys => if |y.2| ≤ |x.2| then x :: y :: ys else y :: insertAbsDesc x ys

/-- Stable descending sort on the absolute value of the entry: the
behaviour of Python sorted(items, key=abs, reverse=True), which keeps
equal-key entries in input order. -/
def sortAbsDesc : List (String × ℚ) → List (String × ℚ)
  | [] => []
  | x :: xs => insertAbsDesc x (sortAbsDesc xs)

/-- Embeds feature_mapper.get_top_distinctive_features. -/
def get_top_distinctive_features (features : List (String × ℚ))
    (count : ℕ) : List (String × ℚ) :=
  (sortAbsDesc features).take count

theorem mem_insertAbsDesc (x z : String × ℚ) (l : List (String × ℚ)) :
    z ∈ insertAbsDesc x l ↔ z = x ∨ z ∈ l := by
  induction l with
  | nil => simp [insertAbsDesc]
  | cons y ys ih =>
    unfold insertAbsDesc
    by_cases h : |y.2| ≤ |x.2|
    · simp [h]
    · simp [h, ih]
      tauto

theorem sorted_insertAbsDesc (x : String × ℚ) (l : List (String × ℚ))
    (h : l.Pairwise (fun a b => |b.2| ≤ |a.2|)) :
    (insertAbsDesc x l).Pairwise (fun a b => |b.2| ≤ |a.2|) := by
  induction l with
  | nil => simp [insertAbsDesc]
  | cons y ys ih =>
    rw [List.pairwise_cons] at h
    obtain ⟨hy, hys⟩ := h
    unfold insertAbsDesc
    by_cases hxy : |y.2| ≤ |x.2|
    · rw [if_pos hxy, List.pairwise_cons]
      refine ⟨?_, List.pairwise_cons.mpr ⟨hy, hys⟩⟩
      intro z hz
      rcases List.mem_cons.mp hz with rfl | hz
      · exact hxy
      · exact le_trans (hy z hz) hxy
    · rw [if_neg hxy, List.pairwise_cons]
      refine ⟨?_, ih hys⟩
      intro z hz
      rcases (mem_insertAbsDesc x z ys).mp hz with rfl | hz
      · exact le_of_lt (not_le.mp hxy)
      · exact hy z hz

theorem sorted_sortAbsDesc (l : List (String × ℚ)) :
    (sortAbsDesc l).Pairwise (fun a b => |b.2| ≤ |a.2|) := by
  induction l with
  | nil => simp [sortAbsDesc]
  | cons x xs ih => exact sorted_insertAbsDesc x (sortAbsDesc xs) ih

theorem perm_insertAbsDesc (x : String × ℚ) (l : List (String × ℚ)) :
    List.Perm (insertAbsDesc x l) (x :: l) := by
  induction l with
  | nil => exact List.Perm.refl [x]
  | cons y ys ih =>
    unfold insertAbsDesc
    by_cases h : |y.2| ≤ |x.2|
    · rw [if_pos h]
    · rw [if_neg h]
      exact (List.Perm.cons y ih).trans (List.Perm.swap x y ys)

theorem perm_sortAbsDesc (l : List (String × ℚ)) :
    List.Perm (sortAbsDesc l) l := by
  induction l with
  | nil => exact List.Perm.refl []
  | cons x xs ih =>
    exact (perm_insertAbsDesc x (sortAbsDesc xs)).trans (List.Perm.cons x ih)

theorem filter_insertAbsDesc (q : ℚ) (x : String × ℚ)
    (l : List (String × ℚ)) :
    (insertAbsDesc x l).filter (fun p => decide (|p.2| = q)) =
      if |x.2| = q then x :: l.filter (fun p => decide (|p.2| = q))
      else l.filter (fun p => decide (|p.2| = q)) := by
  induction l with
  | nil => by_cases hx : |x.2| = q <;> simp [insertAbsDesc, hx]
  | cons y ys ih =>
    unfold insertAbsDesc
    by_cases hxy : |y.2| ≤ |x.2|
    · rw [if_pos hxy]
      by_cases hx : |x.2| = q <;> simp [List.filter_cons, hx]
    · rw [if_neg hxy]
      by_cases hy : |y.2| = q
      · have hxq : ¬ |x.2| = q := by
          intro hq
          exact hxy (hq ▸ le_of_eq hy)
        simp [List.filter_cons, hy, hxq, ih]
      · simp [List.filter_cons, hy, ih]

theorem filter_sortAbsDesc (q : ℚ) (l : List (String × ℚ)) :
    (sortAbsDesc l).filter (fun p => decide (|p.2| = q)) =
      l.filter (fun p => decide (|p.2| = q)) := by
  induction l with
  | nil => rfl
  | cons x xs ih =>
    show (insertAbsDesc x (sortAbsDesc xs)).filter _ = _
    rw [filter_insertAbsDesc]
    by_cases hx : |x.2| = q <;> simp [hx, List.filter_cons, ih]

/-- Claim C8 counterexample: two features tie on absolute value while
standing in the input in the reverse of catalog insertion order; the
ranking keeps the input order, so jaw_width (catalog position 5) comes out
ahead of nose_width (catalog position 0). -/
theorem c8_counterexample :
    get_top_distinctive_features
        [("jaw_width", 1/2), ("nose_width", 1/2)] 2 =
      [("jaw_width", 1/2), ("nose_width", 1/2)] ∧
    FACIAL_FEATURE_NAMES.indexOf "nose_width" <
      FACIAL_FEATURE_NAMES.indexOf "jaw_width" := by
  refine ⟨?_, by decide⟩
  norm_num [get_top_distinctive_features, sortAbsDesc, insertAbsDesc]

/-- Claim C8 amended: the ranking is the count-long prefix of the stable
descending sort on absolute value: the result is sorted by descending
absolute value and reproducible, and entries with equal absolute value keep
the input map's insertion order, not the catalog's. -/
theorem c8_top_features_stable (features : List (String × ℚ))
    (count : ℕ) :
    (get_top_distinctive_features features count).Pairwise
        (fun a b => |b.2| ≤ |a.2|) ∧
    List.Perm (sortAbsDesc features) features ∧
    (∀ q : ℚ, (sortAbsDesc features).filter (fun p => decide (|p.2| = q)) =
      features.filter (fun p => decide (|p.2| = q))) ∧
    (get_top_distinctive_features features count).length =
      min count features.length := by
  refine ⟨?_, perm_sortAbsDesc features,
    fun q => filter_sortAbsDesc q features, ?_⟩
  · exact List.Pairwise.sublist (List.take_sublist count _)
      (sorted_sortAbsDesc features)
  · rw [get_top_distinctive_features, List.length_take,
      (perm_sortAbsDesc features).length_eq]

/-! ### presets.py -/

structure Preset where
  description : String
  features : List (String × ℚ)

/-- Embeds FACE_PRESETS: every preset of the source, in insertion order. -/
def FACE_PRESETS : List (String × Preset) := [
  ("angular_face", ⟨"Strong angular features with defined jawline and cheekbones",
    [("jaw_width", -3/10), ("jaw_angle", 7/10), ("cheekbone_prominence", 6/10),
      ("cheekbone_height", 3/10), ("chin_prominence", 4/10),
      ("face_width", -2/10), ("cheek_fullness", -3/10)]⟩),
  ("round_face", ⟨"Soft round face with full cheeks",
    [("jaw_width", 4/10), ("jaw_angle", -5/10), ("cheekbone_prominence", -2/10),
      ("face_width", 5/10), ("chin_prominence", -3/10), ("chin_width", 3/10),
      ("cheek_fullness", 6/10)]⟩),
  ("oval_face", ⟨"Balanced oval face shape",
    [("jaw_width", -1/10), ("face_width", 1/10), ("face_length", 2/10),
      ("chin_prominence", 1/10), ("cheekbone_prominence", 2/10)]⟩),
  ("heart_face", ⟨"Wider forehead tapering to a narrow chin",
    [("forehead_width", 4/10), ("cheekbone_prominence", 3/10),
      ("jaw_width", -5/10), ("chin_width", -4/10), ("chin_prominence", 2/10)]⟩),
  ("square_face", ⟨"Strong square jaw with equal width forehead",
    [("jaw_width", 5/10), ("jaw_angle", 8/10), ("forehead_width", 3/10),
      ("chin_width", 4/10), ("face_width", 3/10),
      ("cheekbone_prominence", 1/10)]⟩),
  ("button_nose", ⟨"Small upturned nose",
    [("nose_width", -3/10), ("nose_length", -5/10), ("nose_tip_height", 4/10),
      ("nose_bridge_width", -2/10)]⟩),
  ("roman_nose", ⟨"Prominent nose bridge with a slight bump",
    [("nose_bridge_height", 7/10), ("nose_length", 3/10),
      ("nose_tip_height", -2/10), ("nose_width", -1/10)]⟩),
  ("wide_nose", ⟨"Broad nose with wider nostrils",
    [("nose_width", 6/10), ("nose_bridge_width", 4/10),
      ("nose_bridge_height", -2/10)]⟩),
  ("narrow_nose", ⟨"Thin narrow nose",
    [("nose_width", -5/10), ("nose_bridge_width", -4/10),
      ("nose_bridge_height", 2/10)]⟩),
  ("large_eyes", ⟨"Large expressive eyes",
    [("eye_size", 6/10), ("eye_spacing", 1/10), ("brow_height", 3/10)]⟩),
  ("almond_eyes", ⟨"Almond-shaped eyes with slight upward tilt",
    [("eye_size", -1/10), ("eye_tilt", 4/10), ("eye_spacing", 0)]⟩),
  ("deep_set_eyes", ⟨"Deep-set eyes under prominent brow",
    [("eye_depth", 5/10), ("brow_height", -3/10), ("eye_size", -2/10)]⟩),
  ("strong_brow", ⟨"Low prominent brow ridge",
    [("brow_height", -3/10), ("brow_arch", -4/10), ("brow_spacing", -2/10)]⟩),
  ("arched_brows", ⟨"High arched eyebrows",
    [("brow_height", 3/10), ("brow_arch", 7/10)]⟩),
  ("full_lips", ⟨"Full plump lips",
    [("lip_fullness_upper", 6/10), ("lip_fullness_lower", 7/10),
      ("lip_width", 2/10)]⟩),
  ("thin_lips", ⟨"Thin narrow lips",
    [("lip_fullness_upper", -5/10), ("lip_fullness_lower", -4/10),
      ("lip_width", -2/10)]⟩),
  ("wide_mouth", ⟨"Wide mouth with natural lips",
    [("lip_width", 6/10), ("lip_fullness_upper", 1/10),
      ("lip_fullness_lower", 1/10)]⟩),
  ("heroic", ⟨"Classic heroic face with strong jaw, defined cheekbones, prominent brow",
    [("jaw_width", 3/10), ("jaw_angle", 6/10), ("chin_prominence", 5/10),
      ("cheekbone_prominence", 5/10), ("cheekbone_height", 3/10),
      ("brow_height", -2/10), ("nose_bridge_height", 3/10),
      ("face_width", 1/10)]⟩),
  ("delicate", ⟨"Delicate refined features with narrow face, small nose, high cheekbones",
    [("face_width", -3/10), ("jaw_width", -4/10), ("nose_width", -3/10),
      ("nose_length", -2/10), ("cheekbone_height", 4/10),
      ("cheekbone_prominence", 3/10), ("lip_fullness_upper", 2/10),
      ("lip_fullness_lower", 2/10), ("brow_arch", 3/10), ("eye_size", 3/10)]⟩),
  ("rugged", ⟨"Weathered rugged face with wide jaw, deep-set eyes, prominent nose",
    [("jaw_width", 5/10), ("jaw_angle", 4/10), ("chin_prominence", 3/10),
      ("nose_bridge_height", 5/10), ("nose_width", 2/10),
      ("brow_height", -4/10), ("eye_depth", 4/10), ("cheek_fullness", -3/10),
      ("forehead_slope", 3/10)]⟩),
  ("youthful", ⟨"Youthful soft features with round face, large eyes, small nose",
    [("face_width", 2/10), ("eye_size", 5/10), ("nose_length", -3/10),
      ("nose_width", -2/10), ("nose_tip_height", 2/10),
      ("cheek_fullness", 4/10), ("lip_fullness_upper", 3/10),
      ("lip_fullness_lower", 3/10), ("jaw_angle", -3/10),
      ("brow_height", 2/10), ("forehead_height", 2/10)]⟩)]

/-- The union of the feature keys of two presets, first preset's keys
first: the semantics (as a key set) of the Python set union. -/
def unionKeys (a b : Preset) : List String :=
  a.features.map Prod.fst ++
    (b.features.map Prod.fst).filter
      (fun k => ¬ (a.features.map Prod.fst).contains k)

/-- Embeds presets.blend_presets: None when either name is absent,
otherwise the per-key linear interpolation over the key union with missing
keys contributing 0.0. -/
def blend_presets (presetA presetB : String) (factor : ℚ) :
    Option (List (String × ℚ)) :=
  match FACE_PRESETS.lookup presetA, FACE_PRESETS.lookup presetB with
  | some a, some b =>
    some ((unionKeys a b).map (fun k =>
      (k, (a.features.lookup k).getD 0 * (1 - factor) +
        (b.features.lookup k).getD 0 * factor)))
  | _, _ => none

theorem lookup_map_fun {γ : Type} (keys : List String) (v : String → γ)
    (k : String) (hk : k ∈ keys) :
    (keys.map (fun key => (key, v key))).lookup k = some (v k) := by
  induction keys with
  | nil => simp at hk
  | cons a t ih =>
    by_cases hka : k = a
    · subst hka
      simp [List.lookup]
    · have hbeq : (k == a) = false := beq_eq_false_iff_ne.mpr hka
      rcases List.mem_cons.mp hk with rfl | hkt
      · exact absurd rfl hka
      · simp [List.lookup, hbeq]
        exact ih hkt

/-- Claim C6: for preset names present in the store and any factor, the
blend is defined over the key union and equals a*(1-factor) + b*factor per
key with missing keys contributing 0.0; factor 0 reproduces A over the
union, factor 1 reproduces B, factor one half gives the per-key arithmetic
mean; an absent preset name gives None. -/
theorem c6_blend_presets :
    (∀ (presetA presetB : String) (factor : ℚ) (a b : Preset),
      FACE_PRESETS.lookup presetA = some a →
      FACE_PRESETS.lookup presetB = some b →
      ∃ m, blend_presets presetA presetB factor = some m ∧
        ∀ k ∈ unionKeys a b,
          m.lookup k = some ((a.features.lookup k).getD 0 * (1 - factor) +
              (b.features.lookup k).getD 0 * factor) ∧
          (factor = 0 →
            m.lookup k = some ((a.features.lookup k).getD 0)) ∧
          (factor = 1 →
            m.lookup k = some ((b.features.lookup k).getD 0)) ∧
          (factor = 1/2 →
            m.lookup k = some (((a.features.lookup k).getD 0 +
              (b.features.lookup k).getD 0) / 2)))
    ∧ (∀ (presetA presetB : String) (factor : ℚ),
      FACE_PRESETS.lookup presetA = none ∨
        FACE_PRESETS.lookup presetB = none →
      blend_presets presetA presetB factor = none) := by
  constructor
  · intro presetA presetB factor a b ha hb
    refine ⟨_, by rw [blend_presets, ha, hb], ?_⟩
    intro k hk
    have hlook := lookup_map_fun (unionKeys a b)
      (fun key => (a.features.lookup key).getD 0 * (1 - factor) +
        (b.features.lookup key).getD 0 * factor) k hk
    refine ⟨hlook, ?_, ?_, ?_⟩
    · intro h0
      subst h0
      rw [hlook]
      ring_nf
    · intro h1
      subst h1
      rw [hlook]
      ring_nf
    · intro hhalf
      subst hhalf
      rw [hlook]
      ring_nf
  · intro presetA presetB factor h
    rcases h with h | h
    · rw [blend_presets, h]
    · rw [blend_presets, h]
      cases FACE_PRESETS.lookup presetA <;> rfl

/-- Witness for C6 at concrete inputs: blending two real presets at one
half is defined and gives the per-key mean on a shared key, and a missing
preset name yields None. -/
theorem c6_blend_presets_witness :
    (∃ m, blend_presets "angular_face" "round_face" (1/2) = some m ∧
      m.lookup "jaw_width" = some (((-3/10 : ℚ) + 4/10) / 2)) ∧
    blend_presets "no_such_preset" "round_face" (1/2) = none := by
  constructor
  · obtain ⟨m, hm, hk⟩ := c6_blend_presets.1 "angular_face" "round_face"
      (1/2) _ _ rfl rfl
    have h := hk "jaw_width" (by decide)
    refine ⟨m, hm, ?_⟩
    have := h.2.2.2 rfl
    simpa using this
  · exact c6_blend_presets.2 "no_such_preset" "round_face" (1/2)
      (Or.inl rfl)

/-! ### proportion_analyzer.py

Landmarks are (x, y, z) triples of rationals.  Every 2D distance of the
source is math.sqrt of a rational square sum, so the analyzer takes the
square root as an explicit parameter sq : Q to Q and every theorem holds
for an arbitrary sq. -/

/-- The squared 2D distance between two landmarks: what the source passes
to math.sqrt inside _dist2d. -/
def dist2dSq (p q : ℚ × ℚ × ℚ) : ℚ :=
  (p.1 - q.1) ^ 2 + (p.2.1 - q.2.1) ^ 2

/-- Embeds proportion_analyzer._midpoint. -/
def midpointP (p q : ℚ × ℚ × ℚ) : ℚ × ℚ × ℚ :=
  ((p.1 + q.1) / 2, (p.2.1 + q.2.1) / 2, (p.2.2 + q.2.2) / 2)

/-- Embeds proportion_analyzer._compute_ipd: the 2D distance between the
midpoints of the outer and inner corners of each eye. -/
def computedIPD (sq : ℚ → ℚ) (landmarks : List (ℚ × ℚ × ℚ)) : ℚ :=
  sq (dist2dSq
    (midpointP (landmarks.getD 33 (0, 0, 0)) (landmarks.getD 133 (0, 0, 0)))
    (midpointP (landmarks.getD 263 (0, 0, 0)) (landmarks.getD 362 (0, 0, 0))))

/-- Embeds proportion_analyzer._point_line_distance_2d. -/
def point_line_distance_2d (sq : ℚ → ℚ) (point lineStart lineEnd : ℚ × ℚ × ℚ) :
    ℚ :=
  let num := |(lineEnd.2.1 - lineStart.2.1) * point.1 -
    (lineEnd.1 - lineStart.1) * point.2.1 +
    lineEnd.1 * lineStart.2.1 - lineEnd.2.1 * lineStart.1|
  let den := sq ((lineEnd.2.1 - lineStart.2.1) ^ 2 + (lineEnd.1 - lineStart.1) ^ 2)
  if den < 1 / 10000000000 then 0 else num / den

/-- Embeds proportion_analyzer._compute_jaw_angle. -/
def compute_jaw_angle (sq : ℚ → ℚ) (landmarks : List (ℚ × ℚ × ℚ))
    (ipd : ℚ) : ℚ :=
  let lm := fun i => landmarks.getD i ((0 : ℚ), (0 : ℚ), (0 : ℚ))
  let leftDev := point_line_distance_2d sq (lm 172) (lm 234) (lm 152)
  let rightDev := point_line_distance_2d sq (lm 397) (lm 454) (lm 152)
  ((leftDev + rightDev) / 2) / ipd

/-- Embeds proportion_analyzer._compute_brow_arch. -/
def compute_brow_arch (landmarks : List (ℚ × ℚ × ℚ)) (ipd : ℚ) : ℚ :=
  let lm := fun i => landmarks.getD i ((0 : ℚ), (0 : ℚ), (0 : ℚ))
  let leftArch := ((lm 107).2.1 + (lm 70).2.1) / 2 - (lm 105).2.1
  let rightArch := ((lm 336).2.1 + (lm 300).2.1) / 2 - (lm 334).2.1
  ((leftArch + rightArch) / 2) / ipd

/-- Embeds proportion_analyzer.analyze_proportions: empty on fewer than 468
landmarks or degenerate IPD, otherwise the full ordered set of ratios.  The
landmark indices are the LM table of the source inlined. -/
def analyze_proportions (sq : ℚ → ℚ) (landmarks : List (ℚ × ℚ × ℚ)) :
    List (String × ℚ) :=
  if landmarks.length < 468 then [] else
  let lm := fun i => landmarks.getD i ((0 : ℚ), (0 : ℚ), (0 : ℚ))
  let d2 := fun p q => sq (dist2dSq p q)
  let ipd := computedIPD sq landmarks
  if ipd < 1 / 1000 then [] else
  let eyeMidZ := ((lm 133).2.2 + (lm 362).2.2) / 2
  let jawMidY := ((lm 234).2.1 + (lm 454).2.1) / 2
  let leftEyeH := d2 (lm 159) (lm 145)
  let rightEyeH := d2 (lm 386) (lm 374)
  let eyeZ := ((lm 133).2.2 + (lm 362).2.2) / 2
  let leftBrowH := d2 (lm 107) (lm 133)
  let rightBrowH := d2 (lm 336) (lm 362)
  let lipCenterY := ((lm 13).2.1 + (lm 14).2.1) / 2
  let faceHeight := d2 (lm 10) (lm 152)
  let eyeCenterY := ((lm 133).2.1 + (lm 362).2.1) / 2
  let cheekY := ((lm 123).2.1 + (lm 352).2.1) / 2
  let cheekZ := ((lm 116).2.2 + (lm 345).2.2) / 2
  let browMidY := ((lm 107).2.1 + (lm 336).2.1) / 2
  [("nose_width_ratio", d2 (lm 129) (lm 358) / ipd),
    ("nose_length_ratio", d2 (lm 6) (lm 4) / ipd),
    ("nose_tip_height_ratio", (lm 4).2.2 - (lm 6).2.2),
    ("nose_bridge_width_ratio", d2 (lm 31) (lm 261) / ipd),
    ("nose_bridge_height_ratio", eyeMidZ - (lm 6).2.2),
    ("jaw_width_ratio", d2 (lm 234) (lm 454) / ipd),
    ("jaw_height_ratio", ((lm 152).2.1 - jawMidY) / ipd),
    ("jaw_angle_ratio", compute_jaw_angle sq landmarks ipd),
    ("chin_prominence_ratio", (lm 199).2.2 - (lm 4).2.2),
    ("chin_width_ratio", d2 (lm 202) (lm 422) / ipd),
    ("chin_height_ratio", d2 (lm 199) (lm 152) / ipd),
    ("eye_height_ratio", ((leftEyeH + rightEyeH) / 2) / ipd),
    ("eye_spacing_ratio", d2 (lm 133) (lm 362) / ipd),
    ("eye_tilt_ratio",
      (((lm 33).2.1 - (lm 133).2.1) + ((lm 362).2.1 - (lm 263).2.1)) / 2),
    ("eye_depth_ratio", eyeZ - (lm 168).2.2),
    ("brow_height_ratio", ((leftBrowH + rightBrowH) / 2) / ipd),
    ("brow_arch_ratio", compute_brow_arch landmarks ipd),
    ("brow_spacing_ratio", d2 (lm 107) (lm 336) / ipd),
    ("lip_upper_ratio", d2 (lm 0) (lm 13) / ipd),
    ("lip_lower_ratio", d2 (lm 0) (lm 14) / ipd),
    ("lip_width_ratio", d2 (lm 61) (lm 291) / ipd),
    ("lip_height_ratio",
      if faceHeight > 1 / 1000 then (lipCenterY - (lm 4).2.1) / ipd
      else 32 / 100),
    ("cheekbone_height_ratio", (cheekY - eyeCenterY) / ipd),
    ("cheekbone_prominence_ratio", d2 (lm 123) (lm 352) / ipd),
    ("cheek_fullness_ratio", cheekZ - eyeMidZ),
    ("forehead_height_ratio", |(lm 10).2.1 - browMidY| / ipd),
    ("forehead_width_ratio", d2 (lm 70) (lm 300) / ipd),
    ("forehead_slope_ratio", (lm 10).2.2 - (lm 9).2.2),
    ("face_width_ratio", d2 (lm 234) (lm 454) / ipd),
    ("face_length_ratio", d2 (lm 10) (lm 152) / ipd),
    ("ear_size_ratio", 0),
    ("ear_angle_ratio", 0)]

/-- The ratio names analyze_proportions computes, in insertion order. -/
def RATIO_NAMES : List String := [
  "nose_width_ratio", "nose_length_ratio", "nose_tip_height_ratio",
  "nose_bridge_width_ratio", "nose_bridge_height_ratio", "jaw_width_ratio",
  "jaw_height_ratio", "jaw_angle_ratio", "chin_prominence_ratio",
  "chin_width_ratio", "chin_height_ratio", "eye_height_ratio",
  "eye_spacing_ratio", "eye_tilt_ratio", "eye_depth_ratio",
  "brow_height_ratio", "brow_arch_ratio", "brow_spacing_ratio",
  "lip_upper_ratio", "lip_lower_ratio", "lip_width_ratio",
  "lip_height_ratio", "cheekbone_height_ratio",
  "cheekbone_prominence_ratio", "cheek_fullness_ratio",
  "forehead_height_ratio", "forehead_width_ratio", "forehead_slope_ratio",
  "face_width_ratio", "face_length_ratio", "ear_size_ratio",
  "ear_angle_ratio"]

/-- Claim C2: the analyzer returns the empty map exactly when the landmark
count is below 468 or the computed IPD is below 0.001, and on every other
input it returns a map whose keys are exactly the fixed ordered set of 32
ratio names, never a partial one; this holds for every square-root
function. -/
theorem c2_analyze_all_or_nothing :
    ∀ (sq : ℚ → ℚ) (landmarks : List (ℚ × ℚ × ℚ)),
      (analyze_proportions sq landmarks = [] ↔
        landmarks.length < 468 ∨ computedIPD sq landmarks < 1 / 1000) ∧
      (¬ (landmarks.length < 468 ∨ computedIPD sq landmarks < 1 / 1000) →
        (analyze_proportions sq landmarks).map Prod.fst = RATIO_NAMES) := by
  intro sq landmarks
  by_cases h1 : landmarks.length < 468
  · constructor
    · simp [analyze_proportions, h1]
    · intro h
      exact absurd (Or.inl h1) h
  · by_cases h2 : computedIPD sq landmarks < 1 / 1000
    · constructor
      · simp [analyze_proportions, h1, h2]
      · intro h
        exact absurd (Or.inr h2) h
    · have h2i : ¬ computedIPD sq landmarks < (1000 : ℚ)⁻¹ := by
        rwa [← one_div]
      constructor
      · simp [analyze_proportions, h1, h2]
      · intro _
        simp [analyze_proportions, h1, h2, h2i, RATIO_NAMES]

/-- Witness for C2 at a concrete input: with the constant square root 1 and
468 landmarks at the origin the guards pass and all 32 ratio names come
back. -/
theorem c2_analyze_all_or_nothing_witness :
    ¬ ((List.replicate 468 ((0 : ℚ), (0 : ℚ), (0 : ℚ))).length < 468 ∨
        computedIPD (fun _ => 1)
          (List.replicate 468 ((0 : ℚ), (0 : ℚ), (0 : ℚ))) < 1 / 1000) ∧
    (analyze_proportions (fun _ => 1)
        (List.replicate 468 ((0 : ℚ), (0 : ℚ), (0 : ℚ)))).map Prod.fst =
      RATIO_NAMES := by
  have h : ¬ ((List.replicate 468 ((0 : ℚ), (0 : ℚ), (0 : ℚ))).length < 468 ∨
      computedIPD (fun _ => 1)
        (List.replicate 468 ((0 : ℚ), (0 : ℚ), (0 : ℚ))) < 1 / 1000) := by
    rw [List.length_replicate]
    push_neg
    refine ⟨le_refl 468, ?_⟩
    show (1 : ℚ) / 1000 ≤ 1
    norm_num
  exact ⟨h, (c2_analyze_all_or_nothing (fun _ => 1)
    (List.replicate 468 ((0 : ℚ), (0 : ℚ), (0 : ℚ)))).2 h⟩

/-! ### validators.py natural-language parsing

Text is modelled as List Char.  Python str.replace, str.strip, the regex
split on commas, semicolons and the whole word "and", and substring tests
are embedded below character by character. -/

/-- Python substring test (needle in hay): some suffix of hay starts with
needle; the empty needle is a substring of everything. -/
def isInfixOfChars (needle : List Char) : List Char → Bool
  | [] => needle.isEmpty
  | c :: t => needle.isPrefixOf (c :: t) || isInfixOfChars needle t

/-- Embeds validators.DIRECTION_MAP in dict insertion order. -/
def DIRECTION_MAP : List (String × ℚ) := [
  ("wider", 1), ("bigger", 1), ("larger", 1), ("more", 1), ("higher", 1),
  ("taller", 1), ("fuller", 1), ("thicker", 1), ("longer", 1),
  ("stronger", 1), ("deeper", 1), ("prominent", 1), ("pronounced", 1),
  ("raised", 1), ("increased", 1), ("up", 1), ("out", 1), ("forward", 1),
  ("rounder", 1), ("plumper", 1),
  ("narrower", -1), ("smaller", -1), ("less", -1), ("lower", -1),
  ("shorter", -1), ("thinner", -1), ("flatter", -1), ("shallower", -1),
  ("reduced", -1), ("receding", -1), ("decreased", -1), ("down", -1),
  ("in", -1), ("back", -1), ("slimmer", -1)]

/-- Embeds validators._build_feature_keyword_map in dict insertion order. -/
def FEATURE_KEYWORDS : List (String × String) := [
  ("nose width", "nose_width"), ("nose", "nose_width"),
  ("nostril", "nose_width"), ("nose length", "nose_length"),
  ("nose tip", "nose_tip_height"), ("nose bridge", "nose_bridge_height"),
  ("jawline", "jaw_width"), ("jaw width", "jaw_width"), ("jaw", "jaw_width"),
  ("jaw angle", "jaw_angle"), ("chin", "chin_prominence"),
  ("chin width", "chin_width"), ("eye size", "eye_size"),
  ("eyes", "eye_size"), ("eye spacing", "eye_spacing"),
  ("eye tilt", "eye_tilt"), ("eye depth", "eye_depth"),
  ("brow height", "brow_height"), ("brow", "brow_height"),
  ("eyebrow", "brow_height"), ("brow arch", "brow_arch"),
  ("upper lip", "lip_fullness_upper"), ("lower lip", "lip_fullness_lower"),
  ("lip", "lip_fullness_upper"), ("lips", "lip_fullness_upper"),
  ("mouth width", "lip_width"), ("mouth", "lip_width"),
  ("cheekbone", "cheekbone_prominence"), ("cheek", "cheek_fullness"),
  ("forehead height", "forehead_height"),
  ("forehead width", "forehead_width"), ("forehead", "forehead_height"),
  ("ear size", "ear_size"), ("ear", "ear_size"),
  ("face width", "face_width"), ("face length", "face_length"),
  ("face", "face_width")]

/-- The filler words removed by whole-word replacement, in source order. -/
def STOP_WORDS : List String :=
  ["make", "the", "a", "an", "with", "and", "please", "give", "me", "set",
    "adjust"]

def STRONG_WORDS : List String :=
  ["very", "much", "extremely", "significantly"]

def MILD_WORDS : List String :=
  ["slightly", "a bit", "a little", "subtly"]

/-- Python str.strip: whitespace removed from both ends. -/
def stripChars (s : List Char) : List Char :=
  ((s.dropWhile Char.isWhitespace).reverse.dropWhile Char.isWhitespace).reverse

/-- The scan of Python str.replace, structurally recursive on a fuel that
bounds the number of characters left: each step consumes at least one
character, so fuel = length of the text never runs out. -/
def replaceAllFuel (old new : List Char) : Nat → List Char → List Char
  | _, [] => []
  | 0, s => s
  | fuel + 1, c :: rest =>
    if old ≠ [] ∧ old.isPrefixOf (c :: rest) then
      new ++ replaceAllFuel old new fuel (rest.drop (old.length - 1))
    else c :: replaceAllFuel old new fuel rest

/-- Python str.replace old new: leftmost non-overlapping occurrences, the
replacement text never rescanned. -/
def replaceAll (old new s : List Char) : List Char :=
  replaceAllFuel old new s.length s

/-- The stop-word pass of parse_natural_description: each filler word,
surrounded by single spaces, replaced by one space, in source order. -/
def removeStopWords (s : List Char) : List Char :=
  STOP_WORDS.foldl
    (fun t w => replaceAll ([' '] ++ w.toList ++ [' ']) [' '] t) s

/-- The regex word class of re.split: letters, digits and underscore. -/
def isWordChar (c : Char) : Bool := c.isAlphanum || c == '_'

def headIsWordChar : List Char → Bool
  | [] => false
  | c :: _ => isWordChar c

def andChars : List Char := ['a', 'n', 'd']

/-- Embeds re.split of the pattern comma-semicolon-or-whole-word-and:
prevWord tracks whether the previous character is a word character, so the
word boundaries of the \x62and\x62 alternative are honoured; matches are
consumed and each cut starts a new segment. -/
def splitSegsFuel : Nat → Bool → List Char → List (List Char)
  | _, _, [] => [[]]
  | 0, _, s => [s]
  | fuel + 1, prevWord, c :: rest =>
    if c == ',' || c == ';' then [] :: splitSegsFuel fuel false rest
    else if ¬ prevWord ∧ andChars.isPrefixOf (c :: rest) ∧
        headIsWordChar (rest.drop 2) = false then
      [] :: splitSegsFuel fuel true (rest.drop 2)
    else
      match splitSegsFuel fuel (isWordChar c) rest with
      | [] => [[c]]
      | seg :: segs => (c :: seg) :: segs

def splitSegs (prevWord : Bool) (s : List Char) : List (List Char) :=
  splitSegsFuel s.length prevWord s

structure NLEdit where
  feature : String
  value : ℚ
  direction : String
  raw : String
deriving DecidableEq

/-- The direction scan of parse_natural_description: the first entry of
DIRECTION_MAP whose word occurs as a substring of the segment; (0, empty)
when none does. -/
def findDirection (part : List Char) : ℚ × String :=
  match DIRECTION_MAP.find? (fun p => isInfixOfChars p.1.toList part) with
  | some p => (p.2, p.1)
  | none => (0, "")

/-- The feature scan of parse_natural_description: among the keywords
occurring as substrings, the longest wins, with the earlier entry kept on a
length tie (the source updates only on a strictly greater score). -/
def findFeature (part : List Char) : Option String :=
  (FEATURE_KEYWORDS.foldl
    (fun best p =>
      if isInfixOfChars p.1.toList part ∧ best.1 < p.1.length then
        (p.1.length, some p.2)
      else best)
    ((0 : ℕ), (none : Option String))).2

/-- One loop iteration of parse_natural_description over a raw segment:
strip it, skip it when empty, find direction and feature, drop the segment
when no feature keyword occurs, and scale the direction sign by 0.8, 0.25
or 0.5 after the strong and mild intensity checks, in that order. -/
def segEdit (part0 : List Char) : Option NLEdit :=
  let part := stripChars part0
  if part = [] then none
  else
    let dir := findDirection part
    match findFeature part with
    | none => none
    | some f =>
      let magnitude : ℚ :=
        if STRONG_WORDS.any (fun w => isInfixOfChars w.toList part) then 8/10
        else if MILD_WORDS.any (fun w => isInfixOfChars w.toList part) then 1/4
        else 1/2
      some ⟨f, dir.1 * magnitude, dir.2, String.mk part⟩

/-- Lowercasing, stripping and the stop-word pass of the source, in that
order. -/
def cleanText (description : String) : List Char :=
  removeStopWords (stripChars (description.toList.map Char.toLower))

/-- Embeds validators.parse_natural_description. -/
def parse_natural_description (description : String) : List NLEdit :=
  (splitSegs false (cleanText description)).filterMap segEdit

/-- Claim C4 counterexample: the input has the form A and B, each half
holding a direction word and a feature keyword naming distinct features
(nose_width and jaw_width), yet the parse returns a single edit: the
stop-word pass removes the word and before the split runs. -/
theorem c4_counterexample :
    parse_natural_description "wider nose and bigger jaw" =
      [⟨"nose_width", 1/2, "wider", "wider nose bigger jaw"⟩] := by
  have h : parse_natural_description "wider nose and bigger jaw" =
      [⟨"nose_width", 1 * (1/2 : ℚ), "wider", "wider nose bigger jaw"⟩] := by
    rfl
  rw [h]
  norm_num

/-- Claim C4 amended: the parser splits the lowercased stop-word-stripped
text on commas, semicolons and the whole word and, one edit per matching
segment, but the space-surrounded word and is itself a stop word and is
removed before splitting, so an input of the form A and B collapses to one
segment and one edit for the longest feature keyword; a comma or semicolon
separator, or a surviving and (here one left by the non-rescanning replace
of a doubled and), still yields one edit per segment. -/
theorem c4_and_is_removed_before_split :
    parse_natural_description "wider nose and bigger jaw" =
      [⟨"nose_width", 1/2, "wider", "wider nose bigger jaw"⟩] ∧
    parse_natural_description "wider nose, bigger jaw" =
      [⟨"nose_width", 1/2, "wider", "wider nose"⟩,
        ⟨"jaw_width", 1/2, "bigger", "bigger jaw"⟩] ∧
    parse_natural_description "wider nose; bigger jaw" =
      [⟨"nose_width", 1/2, "wider", "wider nose"⟩,
        ⟨"jaw_width", 1/2, "bigger", "bigger jaw"⟩] ∧
    parse_natural_description "wider nose and and bigger jaw" =
      [⟨"nose_width", 1/2, "wider", "wider nose"⟩,
        ⟨"jaw_width", 1/2, "bigger", "bigger jaw"⟩] := by
  have h1 : parse_natural_description "wider nose and bigger jaw" =
      [⟨"nose_width", 1 * (1/2 : ℚ), "wider", "wider nose bigger jaw"⟩] := by
    rfl
  have h2 : parse_natural_description "wider nose, bigger jaw" =
      [⟨"nose_width", 1 * (1/2 : ℚ), "wider", "wider nose"⟩,
        ⟨"jaw_width", 1 * (1/2 : ℚ), "bigger", "bigger jaw"⟩] := by
    rfl
  have h3 : parse_natural_description "wider nose; bigger jaw" =
      [⟨"nose_width", 1 * (1/2 : ℚ), "wider", "wider nose"⟩,
        ⟨"jaw_width", 1 * (1/2 : ℚ), "bigger", "bigger jaw"⟩] := by
    rfl
  have h4 : parse_natural_description "wider nose and and bigger jaw" =
      [⟨"nose_width", 1 * (1/2 : ℚ), "wider", "wider nose"⟩,
        ⟨"jaw_width", 1 * (1/2 : ℚ), "bigger", "bigger jaw"⟩] := by
    rfl
  rw [h1, h2, h3, h4]
  norm_num

/-- Claim C5 counterexample: the segment nose matches no direction-lexicon
word, yet it is not dropped: the parse returns an edit for nose_width with
value 0.0 and an empty direction word. -/
theorem c5_counterexample :
    parse_natural_description "nose" = [⟨"nose_width", 0, "", "nose"⟩] ∧
    DIRECTION_MAP.find?
      (fun p => isInfixOfChars p.1.toList "nose".toList) = none := by
  constructor
  · have h : parse_natural_description "nose" =
        [⟨"nose_width", 0 * (1/2 : ℚ), "", "nose"⟩] := by
      rfl
    rw [h]
    norm_num
  · decide

/-- Claim C5 amended: a segment matching no feature keyword contributes no
edit, an input none of whose segments matches a feature keyword returns the
empty list rather than an error, and a segment matching a feature but no
direction word is not dropped: it contributes an edit with value 0.0 and an
empty direction word. -/
theorem c5_unmatched_segments :
    (∀ part : List Char, findFeature (stripChars part) = none →
      segEdit part = none) ∧
    (∀ description : String,
      (∀ seg ∈ splitSegs false (cleanText description),
        findFeature (stripChars seg) = none) →
      parse_natural_description description = []) ∧
    (∀ (part : List Char) (f : String),
      DIRECTION_MAP.find?
          (fun p => isInfixOfChars p.1.toList (stripChars part)) = none →
      findFeature (stripChars part) = some f →
      segEdit part = some ⟨f, 0, "", String.mk (stripChars part)⟩) := by
  refine ⟨?_, ?_, ?_⟩
  · intro part hf
    by_cases hnil : stripChars part = []
    · simp [segEdit, hnil]
    · simp [segEdit, hnil, hf]
  · intro description hseg
    apply List.filterMap_eq_nil_iff.mpr
    intro seg hmem
    have hf := hseg seg hmem
    by_cases hnil : stripChars seg = []
    · simp [segEdit, hnil]
    · simp [segEdit, hnil, hf]
  · intro part f hd hf
    have hnil : stripChars part ≠ [] := by
      intro h0
      have hnone : findFeature ([] : List Char) = none := by decide
      rw [h0, hnone] at hf
      exact Option.noConfusion hf
    have hdir : findDirection (stripChars part) = (0, "") := by
      rw [findDirection, hd]
    simp only [segEdit, if_neg hnil, hdir, hf]
    norm_num

/-- Witness for the amended C5 at concrete inputs: a text with no feature
keyword parses to the empty list, a single bare segment without one yields
no edit, and the directionless segment nose yields the zero-valued edit. -/
theorem c5_unmatched_segments_witness :
    segEdit ("hello world").toList = none ∧
    parse_natural_description "hello world" = [] ∧
    segEdit (" nose ").toList =
      some ⟨"nose_width", 0, "", String.mk (stripChars (" nose ").toList)⟩ :=
  ⟨c5_unmatched_segments.1 ("hello world").toList (by decide),
    c5_unmatched_segments.2.1 "hello world" (by decide),
    c5_unmatched_segments.2.2 (" nose ").toList "nose_width" (by decide)
      (by decide)⟩

end FaceCore
